import Mathlib

/-!
Verification of the client-side orchestration logic of a browser-based
file manager (React + Firebase).  The embedded functions are translated
from `src/App.tsx` (dashboard variant using the `Image/Video/Document/
Audio/Other` enumeration) and `src/unnamed/part_001` (dashboard variant
using the `Photos/Videos/Document/Songs/Others` enumeration), together
with the data model of `src/types.ts` and `src/unnamed/part_003`.
-/

/-- JavaScript strings are modelled as their character sequences. -/
abbrev JsString := List Char

/-- The characters of a Lean string literal; used to write the JS string
constants appearing in the source. -/
def str (s : String) : JsString := s.data

/-- JavaScript `String.prototype.startsWith(p)`: the receiver begins with
the character sequence `p`.  Case-sensitive, no normalization. -/
def jsStartsWith (s p : JsString) : Bool := p.isPrefixOf s

/-- JavaScript `String.prototype.includes(sub)`: `sub` occurs as a
contiguous substring of the receiver.  Case-sensitive. -/
def jsIncludes (s sub : JsString) : Bool :=
  match s with
  | [] => sub.isEmpty
  | c :: tl => sub.isPrefixOf (c :: tl) || jsIncludes tl sub

/-- The five category labels of `src/unnamed/part_003` (`FileType`),
used by the `src/App.tsx` dashboard variant:
`Image = 'Images'`, `Video = 'Videos'`, `Document = 'Documents'`,
`Audio = 'Audio'`, `Other = 'Other'`. -/
inductive FileType
  | Image
  | Video
  | Document
  | Audio
  | Other
deriving DecidableEq, Repr

/-- The five category labels of `src/types.ts` (`FileType`), used by the
`src/unnamed/part_001` dashboard variant:
`Photos`, `Videos`, `Document`, `Songs`, `Others`. -/
inductive FileTypeV
  | Photos
  | Videos
  | Document
  | Songs
  | Others
deriving DecidableEq, Repr

/-- `getFileType` of `src/App.tsx` lines 101-108, applied to the file's
declared content-type string (`file.type`). -/
def getFileType (t : JsString) : FileType :=
  if jsStartsWith t (str "image/") then .Image
  else if jsStartsWith t (str "video/") then .Video
  else if jsStartsWith t (str "audio/") then .Audio
  else if t == str "application/pdf" || jsStartsWith t (str "text/")
          || jsIncludes t (str "document") then .Document
  else .Other

/-- `getFileType` of `src/unnamed/part_001` lines 14-21, applied to the
file's declared content-type string. -/
def getFileTypeV (t : JsString) : FileTypeV :=
  if jsStartsWith t (str "image/") then .Photos
  else if jsStartsWith t (str "video/") then .Videos
  else if jsStartsWith t (str "audio/") then .Songs
  else if t == str "application/pdf" || jsStartsWith t (str "text/")
          || jsIncludes t (str "document") then .Document
  else .Others

/-- The category-label renaming between the two `FileType` enumerations:
Image↔Photos, Video↔Videos, Document↔Document, Audio↔Songs, Other↔Others. -/
def fileTypeCorr : FileType → FileTypeV
  | .Image => .Photos
  | .Video => .Videos
  | .Document => .Document
  | .Audio => .Songs
  | .Other => .Others

/-- The `ManagedFile` record of `src/types.ts` / `src/unnamed/part_003`:
one per uploaded object.  `size` is a non-negative byte count. -/
structure ManagedFile where
  id : JsString
  name : JsString
  type : FileType
  size : Nat
  url : JsString
  userId : JsString
  storagePath : JsString
deriving DecidableEq, Repr

/-- A browser `File` as the upload pipeline reads it: its `name`, its
declared content-type string (`file.type`) and its byte count (`file.size`). -/
structure JsFile where
  name : JsString
  type : JsString
  size : Nat
deriving DecidableEq, Repr

/-- The remote calls issued by the orchestrator that the claims track. -/
inductive BackendOp
  | blobDelete (path : JsString)
  | catalogDelete (docId : JsString)
deriving DecidableEq, Repr

/-- The storage path built in `handleUploadFiles` (`src/App.tsx` line 182):
the template literal `files/{user.uid}/{fileId}-{file.name}`. -/
def mkStoragePath (uid fileId name : JsString) : JsString :=
  str "files/" ++ uid ++ str "/" ++ fileId ++ str "-" ++ name

/-- The catalog document written by `handleUploadFiles`
(`src/App.tsx` lines 188-195): the `newFileDoc` object built from the
uploaded file, the authenticated user's uid, the freshly generated
`fileId` and the download URL returned by the blob store. -/
def mkUploadRecord (uid fileId url docId : JsString) (f : JsFile) :
    ManagedFile :=
  { id := docId
    name := f.name
    type := getFileType f.type
    size := f.size
    url := url
    userId := uid
    storagePath := mkStoragePath uid fileId f.name }

/-- The catalog collection (`collection(db, 'files')`) as a list of
documents; `addDoc` appends, and the per-user query of `fetchFiles`
(`where("userId", "==", user.uid)`) filters by owner. -/
def listForUser (uid : JsString) (catalog : List ManagedFile) :
    List ManagedFile :=
  catalog.filter (fun r => r.userId == uid)

/-- `handleDeleteFile` of `src/App.tsx` lines 209-221.  Inputs model the
environment: whether the user confirms the prompt and whether each of the
two remote deletes succeeds.  Output: the new in-memory file list, the
alert messages raised, and the backend calls issued in order.  The
catalog delete is only attempted after the blob delete returned; a
failure of either lands in the single `catch`, which alerts and leaves
the list untouched. -/
def handleDeleteFile (confirmed blobOk catOk : Bool) (file : ManagedFile)
    (files : List ManagedFile) :
    List ManagedFile × List String × List BackendOp :=
  if ¬confirmed then (files, [], [])
  else if ¬blobOk then
    (files, ["Failed to delete the file."], [.blobDelete file.storagePath])
  else if ¬catOk then
    (files, ["Failed to delete the file."],
      [.blobDelete file.storagePath, .catalogDelete file.id])
  else
    (files.filter (fun f => !(f.id == file.id)), [],
      [.blobDelete file.storagePath, .catalogDelete file.id])

/-- `fetchFiles` of `src/App.tsx` lines 150-167.  `result` is what the
catalog query returns: `some userFiles` on success, `none` on failure
(the `catch` branch).  Output: the new in-memory list, the new
`isLoading` flag (cleared in `finally` on both paths), and the alerts
raised.  The function is total: the failure is absorbed, never rethrown. -/
def fetchFiles (result : Option (List ManagedFile))
    (files : List ManagedFile) :
    List ManagedFile × Bool × List String :=
  match result with
  | some userFiles => (userFiles, false, [])
  | none => (files, false, ["Could not fetch your files."])

/-- The first `setUploadingFiles` of `handleUploadFiles`
(`src/App.tsx` line 177): `prev => [...prev, ...currentUploads]`,
run before any per-file pipeline starts. -/
def uploadStart (currentUploads ind : List JsString) : List JsString :=
  ind ++ currentUploads

/-- The second `setUploadingFiles` of `handleUploadFiles`
(`src/App.tsx` line 204): `prev => prev.filter(name =>
!currentUploads.includes(name))`, run after `Promise.all` settles
(each per-file pipeline has its own `try/catch`, so the join always
resolves, on success and failure alike). -/
def uploadSettle (currentUploads ind : List JsString) : List JsString :=
  ind.filter (fun name => !(currentUploads.contains name))

/-- The net effect of `handleUploadFiles` (`src/App.tsx` lines 173-207)
on the uploading-indicator list: the empty-batch guard returns early;
otherwise the batch's names are appended before the pipelines start and
filtered out after all of them settle. -/
def uploadIndicatorAfterBatch (currentUploads ind : List JsString) :
    List JsString :=
  if currentUploads.length == 0 then ind
  else uploadSettle currentUploads (uploadStart currentUploads ind)

/-- `groupedFiles` of `src/App.tsx` lines 241-247: the reduce that pushes
each file onto the bucket named by its `type` field, starting from the
empty record (a missing bucket reads as the empty list). -/
def groupedFiles (files : List ManagedFile) : FileType → List ManagedFile :=
  files.foldl
    (fun acc file => fun ft =>
      if ft = file.type then acc ft ++ [file] else acc ft)
    (fun _ => [])

/-- A concrete file record used to instantiate the delete theorems. -/
def sampleFileA : ManagedFile :=
  { id := str "docA", name := str "a.txt", type := .Document, size := 3
    url := str "https://dl/a", userId := str "uid1"
    storagePath := str "files/uid1/ra-a.txt" }

/-- A second concrete file record with a distinct id. -/
def sampleFileB : ManagedFile :=
  { id := str "docB", name := str "b.jpg", type := .Image, size := 7
    url := str "https://dl/b", userId := str "uid1"
    storagePath := str "files/uid1/rb-b.jpg" }

example : getFileType (str "image/jpeg") = .Image := by decide
example : getFileType (str "IMAGE/jpeg") = .Other := by decide
example : getFileType (str "application/msword-document") = .Document := by decide
example : getFileTypeV (str "audio/mp3") = .Songs := by decide

/-- A string beginning with the upper-case characters `IMAGE/` does not
start with the lower-case pattern `image/` (matching is case-sensitive). -/
theorem jsStartsWith_upperIMAGE (r : JsString) :
    jsStartsWith (str "IMAGE/" ++ r) (str "image/") = false := rfl

/-- The classifier never returns `Image` for a string beginning `IMAGE/`. -/
theorem getFileType_upperIMAGE (r : JsString) :
    getFileType (str "IMAGE/" ++ r) ≠ FileType.Image := by
  unfold getFileType
  simp only [jsStartsWith_upperIMAGE, Bool.false_eq_true, if_false]
  repeat' split
  all_goals simp_all

/-- C1: `getFileType` is a total pure function into the five category
labels, decided by the stated precedence: `image/`-prefixed strings map
to Images; otherwise `video/`-prefixed to Videos; otherwise
`audio/`-prefixed to Audio; otherwise strings equal to
`application/pdf`, `text/`-prefixed, or containing `document` map to
Document; everything else to Other.  Matching is case-sensitive: any
string beginning `IMAGE/` does not classify as Images. -/
theorem getFileType_total_precedence (t : JsString) :
    (getFileType t = .Image ∨ getFileType t = .Video ∨
     getFileType t = .Audio ∨ getFileType t = .Document ∨
     getFileType t = .Other) ∧
    (getFileType t = .Image ↔ jsStartsWith t (str "image/") = true) ∧
    (getFileType t = .Video ↔
      (jsStartsWith t (str "image/") = false ∧
       jsStartsWith t (str "video/") = true)) ∧
    (getFileType t = .Audio ↔
      (jsStartsWith t (str "image/") = false ∧
       jsStartsWith t (str "video/") = false ∧
       jsStartsWith t (str "audio/") = true)) ∧
    (getFileType t = .Document ↔
      (jsStartsWith t (str "image/") = false ∧
       jsStartsWith t (str "video/") = false ∧
       jsStartsWith t (str "audio/") = false ∧
       (t == str "application/pdf" || jsStartsWith t (str "text/")
          || jsIncludes t (str "document")) = true)) ∧
    (getFileType t = .Other ↔
      (jsStartsWith t (str "image/") = false ∧
       jsStartsWith t (str "video/") = false ∧
       jsStartsWith t (str "audio/") = false ∧
       (t == str "application/pdf" || jsStartsWith t (str "text/")
          || jsIncludes t (str "document")) = false)) ∧
    (∀ r : JsString, getFileType (str "IMAGE/" ++ r) ≠ .Image) := by
  refine ⟨?_, ?_, ?_, ?_, ?_, ?_, fun r => getFileType_upperIMAGE r⟩ <;>
    (unfold getFileType
     by_cases h1 : jsStartsWith t (str "image/") <;>
     by_cases h2 : jsStartsWith t (str "video/") <;>
     by_cases h3 : jsStartsWith t (str "audio/") <;>
     by_cases h4 : (t == str "application/pdf" || jsStartsWith t (str "text/")
          || jsIncludes t (str "document")) = true <;>
     simp_all <;> (intro h5 h6; rcases h4 with (h | h) | h <;> simp_all))

/-- C9: the two classifier variants agree up to the category-label
renaming Image↔Photos, Video↔Videos, Document↔Document, Audio↔Songs,
Other↔Others: on every content-type string they pick corresponding
buckets. -/
theorem classifier_variants_agree (t : JsString) :
    getFileTypeV t = fileTypeCorr (getFileType t) := by
  unfold getFileTypeV getFileType
  by_cases h1 : jsStartsWith t (str "image/") <;>
  by_cases h2 : jsStartsWith t (str "video/") <;>
  by_cases h3 : jsStartsWith t (str "audio/") <;>
  by_cases h4 : (t == str "application/pdf" || jsStartsWith t (str "text/")
       || jsIncludes t (str "document")) = true <;>
  simp_all [fileTypeCorr]

/-- Unrolling the `reduce` of `groupedFiles` with an arbitrary
accumulator: the bucket for `ft` accumulates exactly the files whose
`type` field equals `ft`, in list order. -/
theorem foldl_group_eq_filter (files : List ManagedFile)
    (acc : FileType → List ManagedFile) (ft : FileType) :
    files.foldl
      (fun acc file => fun t =>
        if t = file.type then acc t ++ [file] else acc t)
      acc ft
    = acc ft ++ files.filter (fun f => decide (ft = f.type)) := by
  induction files generalizing acc with
  | nil => simp
  | cons f tl ih =>
    simp only [List.foldl_cons, List.filter_cons]
    rw [ih]
    by_cases h : ft = f.type
    · simp [h]
    · simp [h]

/-- Each bucket of `groupedFiles` is the sublist of files of that type. -/
theorem groupedFiles_eq_filter (files : List ManagedFile) (ft : FileType) :
    groupedFiles files ft
      = files.filter (fun f => decide (ft = f.type)) := by
  unfold groupedFiles
  rw [foldl_group_eq_filter]
  simp

/-- C4: the categorization grouping is a partition of the in-memory
list: a file sits in the bucket named by its `type` field and in no
other, and the five bucket sizes add up to the length of the list. -/
theorem groupedFiles_partition (files : List ManagedFile) :
    ((groupedFiles files .Image).length
      + (groupedFiles files .Video).length
      + (groupedFiles files .Document).length
      + (groupedFiles files .Audio).length
      + (groupedFiles files .Other).length = files.length) ∧
    (∀ f : ManagedFile, ∀ ft : FileType,
        f ∈ groupedFiles files ft ↔ (f ∈ files ∧ f.type = ft)) := by
  constructor
  · simp only [groupedFiles_eq_filter]
    induction files with
    | nil => rfl
    | cons f tl ih =>
      cases h : f.type <;> simp [List.filter_cons, h] <;> omega
  · intro f ft
    rw [groupedFiles_eq_filter]
    simp [List.mem_filter, eq_comm]

/-- C2: once the user confirms, the delete orchestrator issues the blob
delete and then the catalog delete; if both succeed the in-memory list
loses exactly the entries carrying the deleted file's id (all other
entries survive) and no alert is raised, while if either remote call
fails an alert is raised and the list is returned unchanged. -/
theorem handleDeleteFile_confirmed_spec (file : ManagedFile)
    (files : List ManagedFile) (blobOk catOk : Bool) :
    (blobOk = true → catOk = true →
      handleDeleteFile true blobOk catOk file files
        = (files.filter (fun f => !(f.id == file.id)), [],
           [.blobDelete file.storagePath, .catalogDelete file.id]) ∧
      (∀ g : ManagedFile,
        g ∈ (handleDeleteFile true blobOk catOk file files).1
          ↔ (g ∈ files ∧ g.id ≠ file.id))) ∧
    ((blobOk = false ∨ catOk = false) →
      (handleDeleteFile true blobOk catOk file files).1 = files ∧
      (handleDeleteFile true blobOk catOk file files).2.1
        = ["Failed to delete the file."]) := by
  constructor
  · rintro rfl rfl
    refine ⟨rfl, fun g => ?_⟩
    simp [handleDeleteFile, List.mem_filter]
  · rintro (rfl | rfl)
    · cases catOk <;> simp [handleDeleteFile]
    · cases blobOk <;> simp [handleDeleteFile]

/-- C2 witness: deleting `sampleFileA` out of a two-file list with both
remote calls succeeding removes exactly that file, and with a failing
blob delete leaves the list unchanged and raises the alert. -/
theorem handleDeleteFile_confirmed_spec_witness :
    (handleDeleteFile true true true sampleFileA [sampleFileA, sampleFileB]).1
      = [sampleFileB] ∧
    (handleDeleteFile true false true sampleFileA
        [sampleFileA, sampleFileB]).1 = [sampleFileA, sampleFileB] ∧
    (handleDeleteFile true false true sampleFileA
        [sampleFileA, sampleFileB]).2.1 = ["Failed to delete the file."] := by
  refine ⟨?_, ?_, ?_⟩
  · have h := ((handleDeleteFile_confirmed_spec sampleFileA
      [sampleFileA, sampleFileB] true true).1 rfl rfl).1
    rw [h]
    decide
  · exact ((handleDeleteFile_confirmed_spec sampleFileA
      [sampleFileA, sampleFileB] false true).2 (Or.inl rfl)).1
  · exact ((handleDeleteFile_confirmed_spec sampleFileA
      [sampleFileA, sampleFileB] false true).2 (Or.inl rfl)).2

/-- C5: when the catalog query fails, `fetchFiles` leaves the in-memory
list exactly as it was (so an empty list stays empty on a first-load
failure), clears the loading flag, and degrades to the alert notice;
being a total function, it never rethrows. -/
theorem fetchFiles_failure_spec (files : List ManagedFile) :
    (fetchFiles none files).1 = files ∧
    (fetchFiles none files).2.1 = false ∧
    (fetchFiles none files).2.2 = ["Could not fetch your files."] ∧
    (files = [] → (fetchFiles none files).1 = []) :=
  ⟨rfl, rfl, rfl, fun h => h ▸ rfl⟩

/-- C5 witness: a failing first load keeps the empty list empty. -/
theorem fetchFiles_failure_spec_witness :
    (fetchFiles none ([] : List ManagedFile)).1 = [] :=
  (fetchFiles_failure_spec []).2.2.2 rfl

/-- C7: the list-removal step of delete is idempotent — filtering the
deleted id out a second time changes nothing — and after a successful
confirmed delete the file's id is absent, so a repeated delete of the
same file (whether unconfirmed, failing remotely, or succeeding as a
no-op) leaves the in-memory list identical. -/
theorem deleteFile_idempotent (file : ManagedFile)
    (files : List ManagedFile) (confirmed2 blobOk2 catOk2 : Bool) :
    ((handleDeleteFile true true true file files).1.filter
        (fun f => !(f.id == file.id))
      = (handleDeleteFile true true true file files).1) ∧
    (∀ g : ManagedFile,
        g ∈ (handleDeleteFile true true true file files).1 →
          g.id ≠ file.id) ∧
    ((handleDeleteFile confirmed2 blobOk2 catOk2 file
        (handleDeleteFile true true true file files).1).1
      = (handleDeleteFile true true true file files).1) := by
  have hfilt : (handleDeleteFile true true true file files).1
      = files.filter (fun f => !(f.id == file.id)) := rfl
  refine ⟨?_, ?_, ?_⟩
  · rw [hfilt, List.filter_filter]
    simp
  · intro g hg
    rw [hfilt] at hg
    have h := (List.mem_filter.mp hg).2
    simpa using h
  · cases confirmed2 <;> cases blobOk2 <;> cases catOk2 <;>
      simp [handleDeleteFile, List.filter_filter]

/-- C7 witness: in a two-file list, after deleting `sampleFileA` the
surviving `sampleFileB` has a different id, and deleting `sampleFileA`
again leaves the list exactly as after the first delete. -/
theorem deleteFile_idempotent_witness :
    sampleFileB.id ≠ sampleFileA.id ∧
    (handleDeleteFile true true true sampleFileA
        (handleDeleteFile true true true sampleFileA
          [sampleFileA, sampleFileB]).1).1
      = (handleDeleteFile true true true sampleFileA
          [sampleFileA, sampleFileB]).1 := by
  constructor
  · exact (deleteFile_idempotent sampleFileA [sampleFileA, sampleFileB]
      true true true).2.1 sampleFileB (by decide)
  · exact (deleteFile_idempotent sampleFileA [sampleFileA, sampleFileB]
      true true true).2.2

/-- `List.contains` (the model of JS `includes` on the name list)
agrees with list membership. -/
theorem jsContains_iff_mem (l : List JsString) (a : JsString) :
    l.contains a = true ↔ a ∈ l := by
  simp [List.contains, List.elem_iff]

/-- C8: for a non-empty upload batch, every batch name is present in the
indicator list right after the starting update, is gone after the
settling update that follows the all-settled join (which runs on success
and failure alike), and is gone once the whole handler completes. -/
theorem uploadIndicator_batch_spec (batch ind : List JsString)
    (hne : batch ≠ []) :
    (∀ n ∈ batch, n ∈ uploadStart batch ind) ∧
    (∀ n ∈ batch, n ∉ uploadSettle batch (uploadStart batch ind)) ∧
    (∀ n ∈ batch, n ∉ uploadIndicatorAfterBatch batch ind) := by
  have hsettle : ∀ n ∈ batch, ∀ l : List JsString,
      n ∉ uploadSettle batch l := by
    intro n hn l hmem
    have h := (List.mem_filter.mp hmem).2
    simp only [Bool.not_eq_true'] at h
    have hcontra := (jsContains_iff_mem batch n).mpr hn
    rw [h] at hcontra
    exact Bool.false_ne_true hcontra
  refine ⟨?_, fun n hn => hsettle n hn _, ?_⟩
  · intro n hn
    exact List.mem_append.mpr (Or.inr hn)
  · intro n hn
    unfold uploadIndicatorAfterBatch
    split
    · rename_i hcond
      have hb : batch = [] := by
        simpa [List.length_eq_zero] using hcond
      exact absurd hb hne
    · exact hsettle n hn _

/-- C8 witness: a one-file batch named `a.txt`, starting from an empty
indicator list, shows the name while uploading and not afterwards. -/
theorem uploadIndicator_batch_spec_witness :
    str "a.txt" ∈ uploadStart [str "a.txt"] [] ∧
    str "a.txt" ∉ uploadIndicatorAfterBatch [str "a.txt"] [] := by
  have h := uploadIndicator_batch_spec [str "a.txt"] [] (by decide)
  exact ⟨h.1 (str "a.txt") (by decide), h.2.2 (str "a.txt") (by decide)⟩

/-- C10: the settling filter drops every occurrence of every name that
is a member of the batch's name list — including occurrences the batch
did not add, e.g. duplicates contributed by another concurrent batch —
and leaves the multiplicity of every other name unchanged. -/
theorem uploadSettle_removes_all_occurrences
    (batch ind : List JsString) (n : JsString) :
    List.count n (uploadSettle batch ind)
      = if n ∈ batch then 0 else List.count n ind := by
  unfold uploadSettle
  by_cases hn : n ∈ batch
  · rw [if_pos hn, List.count_eq_zero]
    intro hmem
    have h := (List.mem_filter.mp hmem).2
    simp only [Bool.not_eq_true'] at h
    have hcontra := (jsContains_iff_mem batch n).mpr hn
    rw [h] at hcontra
    exact Bool.false_ne_true hcontra
  · rw [if_neg hn]
    have hc : batch.contains n = false := by
      cases hcb : batch.contains n with
      | false => rfl
      | true => exact absurd ((jsContains_iff_mem batch n).mp hcb) hn
    exact List.count_filter (by simpa using hn)

/-- C3: the catalog record written by a successful upload carries the
original file's name, byte count and classified type; after appending it
to the catalog, listing the same user's files returns a record matching
those attributes.  In particular an `image/jpeg` upload of 2048 bytes is
recorded with the Images category and size 2048. -/
theorem upload_roundTrip (uid fileId url docId : JsString) (f : JsFile)
    (catalog : List ManagedFile) :
    (∃ m ∈ listForUser uid
        (catalog ++ [mkUploadRecord uid fileId url docId f]),
        m.name = f.name ∧ m.size = f.size ∧ m.type = getFileType f.type) ∧
    (mkUploadRecord uid fileId url docId
        { name := str "photo.jpg", type := str "image/jpeg", size := 2048 }
      ).type = .Image ∧
    (mkUploadRecord uid fileId url docId
        { name := str "photo.jpg", type := str "image/jpeg", size := 2048 }
      ).size = 2048 := by
  refine ⟨⟨mkUploadRecord uid fileId url docId f, ?_, rfl, rfl, rfl⟩,
    ?_, rfl⟩
  · simp [listForUser, List.mem_filter, mkUploadRecord]
  · show getFileType (str "image/jpeg") = .Image
    decide

/-- C6: the blob path of every upload is exactly the template
`files/{userId}/{fileId}-{originalName}` built from the authenticated
user's uid and the freshly generated identifier, and two uploads by the
same user whose identifiers differ get distinct paths whatever the file
names are.  The hypotheses `fid.length = 36` record that
`crypto.randomUUID()` always returns the 36-character canonical UUID
string, so any two generated identifiers have equal length. -/
theorem storagePath_form_and_distinct (uid fid1 fid2 n1 n2 : JsString)
    (hl1 : fid1.length = 36) (hl2 : fid2.length = 36)
    (hne : fid1 ≠ fid2) :
    (∀ url docId : JsString, ∀ f : JsFile,
        (mkUploadRecord uid fid1 url docId f).storagePath
          = str "files/" ++ uid ++ str "/" ++ fid1 ++ str "-" ++ f.name ∧
        (mkUploadRecord uid fid1 url docId f).userId = uid) ∧
    mkStoragePath uid fid1 n1 ≠ mkStoragePath uid fid2 n2 := by
  refine ⟨fun url docId f => ⟨rfl, rfl⟩, ?_⟩
  intro h
  apply hne
  unfold mkStoragePath at h
  simp only [List.append_assoc] at h
  have h1 := List.append_cancel_left h
  have h2 := List.append_cancel_left h1
  have h3 := List.append_cancel_left h2
  exact (List.append_inj h3 (hl1.trans hl2.symm)).1

/-- C6 witness: two concurrent uploads of `a.txt` by user `u1` with
distinct generated identifiers end up at distinct storage paths. -/
theorem storagePath_form_and_distinct_witness :
    mkStoragePath (str "u1")
        (str "123e4567-e89b-42d3-a456-426614174000") (str "a.txt")
      ≠ mkStoragePath (str "u1")
        (str "123e4567-e89b-42d3-a456-426614174001") (str "a.txt") :=
  (storagePath_form_and_distinct (str "u1")
    (str "123e4567-e89b-42d3-a456-426614174000")
    (str "123e4567-e89b-42d3-a456-426614174001")
    (str "a.txt") (str "a.txt") (by decide) (by decide) (by decide)).2

/-- C1 witness: `image/png` classifies as Images, while the upper-case
variant `IMAGE/png` does not. -/
theorem getFileType_total_precedence_witness :
    getFileType (str "image/png") = .Image ∧
    getFileType (str "IMAGE/" ++ str "png") ≠ .Image := by
  constructor
  · exact (getFileType_total_precedence (str "image/png")).2.1.mpr (by decide)
  · exact (getFileType_total_precedence
      (str "image/png")).2.2.2.2.2.2 (str "png")
